import Mathlib

/-!
Verification development for the `scwoaservices` repository: a shallow
embedding of its five Python modules (`decorators.py`, `errors.py`,
`rules.py`, `options.py`, `tools/create_docu.py`) into Lean, together with
theorems settling the documented behavioural claims.

Conventions of the embedding:
* Python strings are `String`, Python ints are `Int`, Python dicts holding
  JSON data are association lists `List (String × JsonValue)`.
* Logging side effects are made explicit: a wrapped computation returns its
  value together with the list of log entries it emitted.
* Raising a Sanic exception is returning `Except.error` carrying the
  exception value.
* External collaborators (pydantic model parsing, `pkg_resources`
  distribution lookup) enter as explicit function parameters, or as small
  definitions modelled from the spec where the claim needs their shape.
-/

namespace Scwoa

/-- Level of a log record emitted through the sanic logger. -/
inductive LogLevel where
  | warning
  | info
  | error
deriving DecidableEq, Repr

/-- Name of the logger a record was emitted through (`service_logger` is
passed around by name in `decorators.py`; `errors.py` uses the module-level
`sanic.log.logger`). -/
abbrev Logger := String

/-- One emitted log record. -/
structure LogEntry where
  logger : Logger
  level : LogLevel
  msg : String
deriving DecidableEq, Repr

/-- A primitive JSON value, the payload currency of the request/response
adaptation decorators. -/
inductive JsonValue where
  | str (s : String)
  | int (n : Int)
  | bool (b : Bool)
  | null
deriving DecidableEq, Repr

/-- A JSON object / Python dict as an association list. -/
abbrev JsonObject := List (String × JsonValue)

/-- Sanic exception values as used by this repository: `PreconditionFailed`
(declared in `errors.py`, raised with an explicit status code),
`ServerError`, and any other framework-native exception. -/
inductive SanicExc where
  | preconditionFailed (msg : String) (status_code : Int)
  | serverError (msg : String)
  | otherSanic (msg : String)
deriving DecidableEq, Repr

/-- A Python exception reaching the decorators or the error handler: either
a framework-native `SanicException` or any other exception, identified by
its `str(...)` rendering. -/
inductive Exc where
  | sanic (e : SanicExc)
  | plain (msg : String)
deriving DecidableEq, Repr

/-- The `str(...)` rendering of an exception (what `logger.error(exception)`
prints). -/
def sanicMsg : SanicExc → String
  | .preconditionFailed m _ => m
  | .serverError m => m
  | .otherSanic m => m

/-- String rendering of an arbitrary exception. -/
def excStr : Exc → String
  | .sanic e => sanicMsg e
  | .plain m => m

/-- The part of a Sanic `Request` the embedded code reads: `request.body`
(raw bytes, of abstract type `β`), `request.json` (the framework's rendering
of the parsed JSON payload, as interpolated into f-strings), and
`request.endpoint` (the dotted endpoint path used by the error handler). -/
structure Request (β : Type) where
  body : β
  json : String
  endpoint : String

/-- The part of a Sanic `HTTPResponse` the claims mention. -/
structure HTTPResponse where
  content_type : String
  status : Int
  body : JsonObject
deriving DecidableEq, Repr

/-- Embedding of `sanic.response.json(...)`: JSON response with default
status 200. -/
def response_json (obj : JsonObject) : HTTPResponse :=
  { content_type := "application/json", status := 200, body := obj }

/-- Boolean test that `pat` is a prefix of `s` (over character lists). -/
def listPrefixOf : List Char → List Char → Bool
  | [], _ => true
  | _ :: _, [] => false
  | a :: as, b :: bs => a == b && listPrefixOf as bs

/-- Boolean test that `pat` occurs contiguously inside `s`. -/
def listSublist : List Char → List Char → Bool
  | pat, [] => pat.isEmpty
  | pat, c :: rest => listPrefixOf pat (c :: rest) || listSublist pat rest

/-- A string `s` contains the tag `t` as a contiguous substring. -/
def containsTag (s t : String) : Bool :=
  listSublist t.data s.data

/-! ## rules.py -/

/-- The swagger-related `app.config` attributes set by
`BaseServiceRules.__post_init__` (and partly refreshed by `reconfig`). -/
structure AppConfig where
  API_VERSION : String
  API_TITLE : String
  API_DESCRIPTION : String
  API_PRODUCES_CONTENT_TYPES : List String
  API_CONTACT_EMAIL : String
  API_HOST : String
deriving DecidableEq, Repr

/-- The `BaseServiceRules` dataclass of `rules.py` after construction.
`version` is an `Option String` so that the Python `None` default is
representable and "never `None` after construction" is expressible. -/
structure BaseServiceRules where
  servicename : String
  host : String
  port : Int
  debug : Bool
  title : String
  description : String
  contact_email : String
  version : Option String
  produces_content_types : List String
  workers : Int
  mode : String
  config : AppConfig
deriving DecidableEq, Repr

/-- Construction of a `BaseServiceRules`, embedding `__init__` plus
`__post_init__`. The external `pkg_resources.get_distribution(...).version`
lookup is the parameter `dist_version`: `some v` when the distribution
resolves with version `v`, `none` when the lookup raises (the bare `except`
branch, which sets `version` to the empty string). The caller-supplied
`version` argument is shadowed by `__post_init__` exactly as in the source. -/
def mkBaseServiceRules (dist_version : String → Option String)
    (servicename : String) (host : String) (port : Int) (debug : Bool)
    (title : String) (description : String) (contact_email : String)
    (version : Option String := none)
    (produces_content_types : List String := ["application/json"])
    (workers : Int := 1) (mode : String := "devl") : BaseServiceRules :=
  let v : String :=
    match dist_version servicename with
    | some dv => dv
    | none => ""
  { servicename := servicename
    host := host
    port := port
    debug := debug
    title := title
    description := description
    contact_email := contact_email
    version := some v
    produces_content_types := produces_content_types
    workers := workers
    mode := mode
    config :=
      { API_VERSION := v
        API_TITLE := title
        API_DESCRIPTION := description
        API_PRODUCES_CONTENT_TYPES := produces_content_types
        API_CONTACT_EMAIL := contact_email
        API_HOST := host ++ (":" ++ toString port) } }

/-- Embedding of `BaseServiceRules.reconfig`: sets `host`, `port`, `mode`
and recomputes `app.config.API_HOST` as the f-string `'{host}:{port}'`. -/
def BaseServiceRules.reconfig (r : BaseServiceRules) (host : String)
    (port : Int) (mode : String) : BaseServiceRules :=
  { r with
    host := host
    port := port
    mode := mode
    config := { r.config with API_HOST := host ++ (":" ++ toString port) } }

/-! ## tools/create_docu.py -/

/-- The slice of the filesystem state touched by the documentation-site
generator: whether `docs/` exists, the content of `docs/index.md` (if the
file exists) and the content of `mkdocs.yml` (if the file exists). -/
structure FS where
  docsFolder : Bool
  indexMd : Option String
  mkdocsYml : Option String
deriving DecidableEq, Repr

/-- Embedding of `creating_docs_folder`: if `docs/` does not exist, create
it and write the placeholder `docs/index.md`; otherwise do nothing. -/
def creating_docs_folder (fs : FS) : FS :=
  if fs.docsFolder then fs
  else
    { fs with
      docsFolder := true
      indexMd := some "place your introduction and overview here" }

/-- Embedding of `creating_mkdocs_file`: if `mkdocs.yml` does not exist,
write the rendered template into it; otherwise do nothing. -/
def creating_mkdocs_file (mkdocs_template : String) (fs : FS) : FS :=
  if fs.mkdocsYml.isSome then fs
  else { fs with mkdocsYml := some mkdocs_template }

/-! ## decorators.py -/

/-- A wrapped stage: its value (or the Sanic/plain exception it raised)
together with the log records it emitted. -/
abbrev Outcome (ρ : Type) := Except Exc ρ × List LogEntry

/-- The f-string built by `api_inputmodel` on validation failure:
`'API: {api} - invalid params ({request.json}) passed to
{rules.servicename}: {err}'`. -/
def invalidParamsMsg (api : String) (reqJson : String) (servicename : String)
    (err : String) : String :=
  "API: " ++ (api ++ (" - invalid params (" ++ (reqJson ++ (") passed to " ++
    (servicename ++ (": " ++ err))))))

/-- Embedding of the `function_wrapper` produced by `api_inputmodel`.
`parse_raw` is the pydantic classmethod `model.parse_raw` (external to this
repository): `Except.error err` is a raised `ValidationError` rendering as
`err`. On failure the wrapper logs a warning through `service_logger` and
raises `PreconditionFailed(msg, status_code=412)`; on success it awaits the
wrapped `func` with the typed value as `service_params` and the ambient
logger as `service_logger`. -/
def api_inputmodel {β μ ρ : Type} (api : String)
    (parse_raw : β → Except String μ) (rules_servicename : String)
    (service_logger : Logger)
    (func : Request β → μ → Logger → Outcome ρ)
    (request : Request β) : Outcome ρ :=
  match parse_raw request.body with
  | .error err =>
    let msg := invalidParamsMsg api request.json rules_servicename err
    (.error (.sanic (.preconditionFailed msg 412)),
     [{ logger := service_logger, level := .warning, msg := msg }])
  | .ok service_params =>
    func request service_params service_logger

/-- The f-string built by `api_outputmodel` on response-construction
failure: `'an internal error occured (service: {rules.servicename}, api:
{api}): {err}'`. -/
def internalErrorMsg (servicename : String) (api : String)
    (err : String) : String :=
  "an internal error occured (service: " ++ (servicename ++ (", api: " ++
    (api ++ ("): " ++ err))))

/-- Rendering of a JSON value as interpolated into the info log line. -/
def jsonValueRepr : JsonValue → String
  | .str s => s
  | .int n => toString n
  | .bool b => toString b
  | .null => "None"

/-- Rendering of a JSON object as interpolated into the info log line. -/
def jsonObjectRepr (obj : JsonObject) : String :=
  String.join (obj.map (fun kv => kv.1 ++ ("=" ++ (jsonValueRepr kv.2 ++ " "))))

/-- The info log line `'processed result {result} => {output.content_type}
[{output.status}] {output.body}'`. -/
def processedMsg (resultRepr : String) (output : HTTPResponse) : String :=
  "processed result " ++ (resultRepr ++ (" => " ++ (output.content_type ++
    (" [" ++ (toString output.status ++ ("] " ++ jsonObjectRepr output.body))))))

/-- Embedding of the `function_wrapper` produced by `api_outputmodel`. The
wrapped `func` may return either an instance of the pydantic output model
(`Sum.inl`, matching the `isinstance(service_result, model)` branch) or a
raw mapping (`Sum.inr`, converted via `model(**service_result)`). The
external pydantic constructor is `ofDict` (an `Except.error err` is a raised
exception rendering as `err`) and `toDict` is `result.dict()`; `reprM` is
the `str(...)` rendering of a model instance used in the info log line. Any
exception inside the `try` block is mapped to `ServerError(msg)`; a
successful conversion is serialized with `response.json` and logged at info
level. Exceptions raised by `func` itself propagate unchanged (the `await`
is outside the `try`). -/
def api_outputmodel {β μ : Type} (api : String) (rules_servicename : String)
    (ofDict : JsonObject → Except String μ) (toDict : μ → JsonObject)
    (reprM : μ → String) (service_logger : Logger)
    (func : Request β → Outcome (μ ⊕ JsonObject))
    (request : Request β) : Outcome HTTPResponse :=
  match func request with
  | (.error e, logs) => (.error e, logs)
  | (.ok service_result, logs) =>
    let converted : Except String μ :=
      match service_result with
      | .inl inst => .ok inst
      | .inr mapping => ofDict mapping
    match converted with
    | .error err =>
      (.error (.sanic (.serverError (internalErrorMsg rules_servicename api err))),
       logs)
    | .ok result =>
      let output := response_json (toDict result)
      (.ok output,
       logs ++ [{ logger := service_logger, level := .info,
                  msg := processedMsg (reprM result) output }])

/-! ### Pydantic input-model parsing, modelled from the spec

The pydantic library itself is not part of this repository; the spec
describes an `InputSchema` as "externally supplied typed structures (field
name → primitive type)" and requires that a conforming payload yields "a
typed value with identical field values". -/

/-- The primitive field types an input/output schema may declare. -/
inductive PrimType where
  | str
  | int
  | bool
deriving DecidableEq, Repr

/-- Does a JSON value inhabit a declared primitive type? -/
def typeMatches : PrimType → JsonValue → Bool
  | .str, .str _ => true
  | .int, .int _ => true
  | .bool, .bool _ => true
  | _, _ => false

/-- Lookup of a field in a JSON object (first binding wins, as in a Python
dict rendered to an association list without duplicate keys). -/
def lookupField (obj : JsonObject) (name : String) : Option JsonValue :=
  match obj.find? (fun kv => kv.1 == name) with
  | some kv => some kv.2
  | none => none

/-- Modelled from the spec: the pydantic `model.parse_raw` validation of a
payload against an `InputSchema` (a list of field name / primitive type
pairs), which is external to this repository. Every declared field must be
present with a value of the declared type; the typed result carries exactly
the declared fields with the payload's values. A missing or ill-typed field
raises a `ValidationError`. -/
def parseModel : List (String × PrimType) → JsonObject →
    Except String JsonObject
  | [], _ => .ok []
  | (name, ty) :: rest, obj =>
    match lookupField obj name with
    | none => .error ("field required: " ++ name)
    | some v =>
      if typeMatches ty v then
        match parseModel rest obj with
        | .ok fields => .ok ((name, v) :: fields)
        | .error e => .error e
      else .error ("wrong type: " ++ name)

/-! ## errors.py -/

/-- Split of a character list at every occurrence of `sep`, with the same
semantics as Python's `str.split` for a one-character separator: the empty
string yields one empty group, and consecutive separators produce empty
groups. -/
def splitOnChar (sep : Char) : List Char → List (List Char)
  | [] => [[]]
  | c :: rest =>
    if c == sep then [] :: splitOnChar sep rest
    else
      match splitOnChar sep rest with
      | [] => [[c]]
      | g :: gs => (c :: g) :: gs

/-- The location string built by `ServiceErrorHandler.default`:
`''.join(request.endpoint.split('.')[1:])` — the dot-separated components
of the endpoint after the first, concatenated with no separator. -/
def dotJoined (endpoint : String) : String :=
  String.join (((splitOnChar '.' endpoint.data).map String.mk).tail)

/-- Embedding of `ServiceErrorHandler.default`. It returns the log records
it emitted (through the module-level sanic logger, here named "root")
together with the exception value it delegates to the framework's
`ErrorHandler.default`: the original exception when it is framework-native,
otherwise a `ServerError` whose message is the f-string `'in api
{servicename}/{joined}: {str(exception)}'`. -/
def ServiceErrorHandler_default (rules_servicename : String)
    (request_endpoint : String) (exception : Exc) :
    List LogEntry × SanicExc :=
  let logs : List LogEntry :=
    [{ logger := "root", level := .error, msg := excStr exception }]
  match exception with
  | .sanic e => (logs, e)
  | .plain m =>
    let location := rules_servicename ++ ("/" ++ dotJoined request_endpoint)
    (logs, .serverError ("in api " ++ (location ++ (": " ++ m))))

/-! ## options.py -/

/-- A Python value as supplied for argparse defaults/choices: a string, an
int, a float (exact here, as all CLI literals are), a bool, or `None`. -/
inductive PyVal where
  | str (s : String)
  | int (n : Int)
  | float (q : Rat)
  | bool (b : Bool)
  | none
deriving DecidableEq, Repr

/-- Python truthiness of such a value (`if default:` / `if required:`). -/
def truthy : PyVal → Bool
  | .str s => !s.isEmpty
  | .int n => n != 0
  | .float q => q != 0
  | .bool b => b
  | .none => false

/-- The `type=` argument of `add_param`. -/
inductive PyType where
  | str
  | int
  | float
deriving DecidableEq, Repr

/-- The argparse action of a registered argument. -/
inductive ArgAction where
  | store
  | store_true
deriving DecidableEq, Repr

/-- One argument registered on an `ArgumentParser`: the option strings and
the keyword dict passed to `add_argument`. An `Option`-valued field is
`none` when the corresponding dict key was not set. -/
structure ArgSpec where
  short : String
  long : String
  param_type : Option PyType
  action : ArgAction
  default : Option PyVal
  choices : Option (List PyVal)
  required : Option Bool
deriving DecidableEq, Repr

/-- An `ArgumentParser` as the list of arguments registered on it. -/
abbrev Parser := List ArgSpec

/-- The `ArgSpec` registered by one `add_param` call: `args['default']` and
`args['choices']` are set only when the supplied values are truthy (a
non-empty list is truthy), and `args['required'] = True` only when
`required` is truthy. -/
def paramSpec (short : String) (name : String) (param_type : PyType)
    (required : Bool := false) (default : PyVal := .none)
    (choices : List PyVal := []) : ArgSpec :=
  { short := "-" ++ short
    long := "--" ++ name
    param_type := some param_type
    action := .store
    default := if truthy default then some default else none
    choices := if choices.isEmpty then none else some choices
    required := if required then some true else none }

/-- Embedding of `add_param`: registers one `store` argument on the passed
parser. -/
def add_param (parser : Parser) (short : String) (name : String)
    (param_type : PyType) (required : Bool := false)
    (default : PyVal := .none) (choices : List PyVal := []) : Parser :=
  parser ++ [paramSpec short name param_type required default choices]

/-- Embedding of `add_flag`: registers a `store_true` flag whose short
option is the first character of the flag name (`f'-{flag[0]}'`). -/
def add_flag (parser : Parser) (flag : String) : Parser :=
  parser ++ [{ short := "-" ++ flag.take 1
               long := "--" ++ flag
               param_type := Option.none
               action := .store_true
               default := Option.none
               choices := Option.none
               required := Option.none }]

/-- The value argparse stores for an argument absent from the command line:
the registered default if one was registered, otherwise `None` for a
`store` argument and `False` for a `store_true` flag. -/
def defaultWhenAbsent (a : ArgSpec) : PyVal :=
  match a.default with
  | some v => v
  | Option.none =>
    match a.action with
    | .store => .none
    | .store_true => .bool false

/-- Embedding of `create_base_options` up to (and not including) the final
`parser.parse_args()` call: the parser it assembles. `Option.none` for the
`parser` argument is the Python `parser=None` default, replaced by a fresh
empty `ArgumentParser` (the `if not parser:` branch). -/
def create_base_options (parser : Option Parser := Option.none) : Parser :=
  let p0 : Parser :=
    match parser with
    | some p => p
    | Option.none => []
  let p1 := add_param p0 "m" "mode" .str false (.str "devl")
    [.str "devl", .str "staging", .str "prod"]
  let p2 := add_param p1 "p" "port" .int
  let p3 := add_param p2 "l" "logfile" .str
  let p4 := add_param p3 "ho" "hostname" .str
  let p5 := add_param p4 "w" "workers" .int
  add_flag p5 "debugmode"

/-! ## Helper lemmas -/

/-- A list is a prefix of itself extended by anything. -/
theorem listPrefixOf_self_append (pat b : List Char) :
    listPrefixOf pat (pat ++ b) = true := by
  induction pat with
  | nil => rfl
  | cons c cs ih => simp [listPrefixOf, ih]

/-- A prefix occurs as a contiguous sublist. -/
theorem listSublist_of_prefixOf (pat s : List Char)
    (h : listPrefixOf pat s = true) : listSublist pat s = true := by
  cases s with
  | nil =>
    cases pat with
    | nil => rfl
    | cons c cs => simp [listPrefixOf] at h
  | cons c rest => simp [listSublist, h]

/-- Occurrence in the tail is occurrence in the whole list. -/
theorem listSublist_cons (pat : List Char) (c : Char) (rest : List Char)
    (h : listSublist pat rest = true) : listSublist pat (c :: rest) = true := by
  simp [listSublist, h]

/-- A list occurs contiguously inside any extension on both sides. -/
theorem listSublist_append (a pat b : List Char) :
    listSublist pat (a ++ (pat ++ b)) = true := by
  induction a with
  | nil => exact listSublist_of_prefixOf pat (pat ++ b) (listPrefixOf_self_append pat b)
  | cons c cs ih => exact listSublist_cons pat c (cs ++ (pat ++ b)) ih

/-- A string that is literally of the form `x ++ (t ++ y)` contains `t`. -/
theorem containsTag_of_eq (s x t y : String) (h : s = x ++ (t ++ y)) :
    containsTag s t = true := by
  subst h
  show listSublist t.data (x ++ (t ++ y)).data = true
  rw [String.data_append, String.data_append]
  exact listSublist_append x.data t.data y.data

/-! ## Claims -/

/-- C5: `BaseServiceRules.reconfig` sets `host`, `port` and `mode` to the
new values, recomputes `app.config.API_HOST` as exactly the concatenation
of the new host, a colon, and the new port, and leaves every other
configuration field (`servicename`, `debug`, `title`, `description`,
`contact_email`, `version`, `produces_content_types`, `workers`)
unchanged. -/
theorem c5_reconfig_frame (r : BaseServiceRules) (host : String) (port : Int)
    (mode : String) :
    (r.reconfig host port mode).host = host ∧
    (r.reconfig host port mode).port = port ∧
    (r.reconfig host port mode).mode = mode ∧
    (r.reconfig host port mode).config.API_HOST =
      host ++ (":" ++ toString port) ∧
    (r.reconfig host port mode).servicename = r.servicename ∧
    (r.reconfig host port mode).debug = r.debug ∧
    (r.reconfig host port mode).title = r.title ∧
    (r.reconfig host port mode).description = r.description ∧
    (r.reconfig host port mode).contact_email = r.contact_email ∧
    (r.reconfig host port mode).version = r.version ∧
    (r.reconfig host port mode).produces_content_types =
      r.produces_content_types ∧
    (r.reconfig host port mode).workers = r.workers :=
  ⟨rfl, rfl, rfl, rfl, rfl, rfl, rfl, rfl, rfl, rfl, rfl, rfl⟩

/-- C8: `creating_docs_folder` and `creating_mkdocs_file` are idempotent:
when the docs directory (resp. `mkdocs.yml`) already exists they perform no
filesystem change — in particular `docs/index.md` is not overwritten — and
running either step twice leaves the same state as running it once. -/
theorem c8_docu_steps_idempotent (fs : FS) (tmpl : String) :
    creating_docs_folder (creating_docs_folder fs) = creating_docs_folder fs ∧
    (fs.docsFolder = true → creating_docs_folder fs = fs) ∧
    creating_mkdocs_file tmpl (creating_mkdocs_file tmpl fs) =
      creating_mkdocs_file tmpl fs ∧
    (fs.mkdocsYml.isSome = true → creating_mkdocs_file tmpl fs = fs) := by
  refine ⟨?_, ?_, ?_, ?_⟩
  · by_cases h : fs.docsFolder <;> simp [creating_docs_folder, h]
  · intro h
    simp [creating_docs_folder, h]
  · by_cases h : fs.mkdocsYml.isSome <;> simp [creating_mkdocs_file, h]
  · intro h
    simp [creating_mkdocs_file, h]

/-- Witness for C8 at a concrete filesystem state where both the docs
directory and `mkdocs.yml` already exist. -/
theorem c8_docu_steps_idempotent_witness :
    creating_docs_folder
        { docsFolder := true, indexMd := some "intro", mkdocsYml := some "y" } =
      { docsFolder := true, indexMd := some "intro", mkdocsYml := some "y" } ∧
    creating_mkdocs_file "tmpl"
        { docsFolder := true, indexMd := some "intro", mkdocsYml := some "y" } =
      { docsFolder := true, indexMd := some "intro", mkdocsYml := some "y" } :=
  ⟨(c8_docu_steps_idempotent _ "tmpl").2.1 rfl,
   (c8_docu_steps_idempotent _ "tmpl").2.2.2 rfl⟩

/-- C9: after construction of a `BaseServiceRules`, `version` equals the
installed distribution's version for `servicename` when that lookup
resolves, and the empty string when it does not; the caller-supplied
`version` argument is overwritten (the construction is independent of it),
so `version` is never `None` after construction. -/
theorem c9_version_resolution (dist_version : String → Option String)
    (sn host : String) (port : Int) (debug : Bool)
    (title descr email : String) (vArg vArg' : Option String)
    (pct : List String) (workers : Int) (mode : String) :
    (mkBaseServiceRules dist_version sn host port debug title descr email
        vArg pct workers mode).version =
      some (match dist_version sn with | some v => v | Option.none => "") ∧
    mkBaseServiceRules dist_version sn host port debug title descr email
        vArg pct workers mode =
      mkBaseServiceRules dist_version sn host port debug title descr email
        vArg' pct workers mode ∧
    (mkBaseServiceRules dist_version sn host port debug title descr email
        vArg pct workers mode).version ≠ Option.none :=
  ⟨rfl, rfl, fun h => Option.noConfusion h⟩

/-- C7: `create_base_options` assembles exactly the flag set `--mode`
(short `-m`) restricted to the choices devl, staging, prod with default
`devl`, `--port` (`-p`, int), `--logfile` (`-l`, str), `--hostname`
(`-ho`, str), `--workers` (`-w`, int), and the boolean `--debugmode` flag
(`-d`); the values applied when a flag is absent from the command line are
`devl` for mode, `None` for port, logfile, hostname and workers, and
`False` for the debug flag. -/
theorem c7_base_options_flag_set :
    create_base_options Option.none =
      [{ short := "-m", long := "--mode", param_type := some .str,
         action := .store, default := some (.str "devl"),
         choices := some [.str "devl", .str "staging", .str "prod"],
         required := Option.none },
       { short := "-p", long := "--port", param_type := some .int,
         action := .store, default := Option.none, choices := Option.none,
         required := Option.none },
       { short := "-l", long := "--logfile", param_type := some .str,
         action := .store, default := Option.none, choices := Option.none,
         required := Option.none },
       { short := "-ho", long := "--hostname", param_type := some .str,
         action := .store, default := Option.none, choices := Option.none,
         required := Option.none },
       { short := "-w", long := "--workers", param_type := some .int,
         action := .store, default := Option.none, choices := Option.none,
         required := Option.none },
       { short := "-d", long := "--debugmode", param_type := Option.none,
         action := .store_true, default := Option.none,
         choices := Option.none, required := Option.none }] ∧
    (create_base_options Option.none).map defaultWhenAbsent =
      [.str "devl", .none, .none, .none, .none, .bool false] := by
  constructor <;> rfl

/-- C10: `add_param` registers a default on the parser only when the
supplied default is truthy; for a falsy default (such as `0`, `0.0`, the
empty string, or `False`) the default is silently dropped and the parsed
value falls back to `None`; the same truthiness filtering governs the
`choices` (registered only when non-empty) and `required` (registered only
when `True`) arguments. -/
theorem c10_add_param_truthiness (parser : Parser) (short name : String)
    (ty : PyType) (req : Bool) (d : PyVal) (cs : List PyVal) :
    add_param parser short name ty req d cs =
      parser ++ [paramSpec short name ty req d cs] ∧
    (paramSpec short name ty req d cs).default =
      (if truthy d then some d else Option.none) ∧
    defaultWhenAbsent (paramSpec short name ty req d cs) =
      (if truthy d then d else PyVal.none) ∧
    (paramSpec short name ty req d cs).choices =
      (if cs.isEmpty then Option.none else some cs) ∧
    (paramSpec short name ty req d cs).required =
      (if req then some true else Option.none) ∧
    truthy (.int 0) = false ∧ truthy (.float 0) = false ∧
    truthy (.str "") = false ∧ truthy (.bool false) = false := by
  refine ⟨rfl, rfl, ?_, rfl, rfl, rfl, rfl, rfl, rfl⟩
  by_cases h : truthy d <;> simp [paramSpec, defaultWhenAbsent, h]

/-- A successful `parseModel` yields exactly the payload's values at the
parsed fields. -/
theorem parseModel_fields_eq :
    ∀ (schema : List (String × PrimType)) (obj v : JsonObject),
      parseModel schema obj = .ok v →
      ∀ p ∈ v, lookupField obj p.1 = some p.2 := by
  intro schema
  induction schema with
  | nil =>
    intro obj v h p hp
    simp only [parseModel] at h
    injection h with h
    subst h
    simp at hp
  | cons head rest ih =>
    intro obj v h p hp
    obtain ⟨name, ty⟩ := head
    simp only [parseModel] at h
    split at h
    · exact absurd h (by simp)
    · rename_i val hl
      split at h
      · split at h
        · rename_i fields hr
          injection h with h
          subst h
          rcases List.mem_cons.mp hp with hp | hp
          · subst hp
            exact hl
          · exact ih obj fields hr p hp
        · exact absurd h (by simp)
      · exact absurd h (by simp)

/-- C1: when the raw request body violates the input schema (the pydantic
parse raises a validation error), the `api_inputmodel` wrapper raises
`PreconditionFailed` with status code 412, logs a warning whose message
contains the offending payload, the endpoint name and the service name, and
never invokes the wrapped handler (its result is independent of the wrapped
function). -/
theorem c1_inputmodel_rejects_invalid {β μ ρ : Type}
    (api servicename : String) (logger : Logger)
    (parse_raw : β → Except String μ)
    (func funcOther : Request β → μ → Logger → Outcome ρ)
    (request : Request β) (err : String)
    (h : parse_raw request.body = .error err) :
    api_inputmodel api parse_raw servicename logger func request =
      (.error (.sanic (.preconditionFailed
          (invalidParamsMsg api request.json servicename err) 412)),
       [{ logger := logger, level := .warning,
          msg := invalidParamsMsg api request.json servicename err }]) ∧
    api_inputmodel api parse_raw servicename logger func request =
      api_inputmodel api parse_raw servicename logger funcOther request ∧
    containsTag (invalidParamsMsg api request.json servicename err)
      request.json = true ∧
    containsTag (invalidParamsMsg api request.json servicename err)
      api = true ∧
    containsTag (invalidParamsMsg api request.json servicename err)
      servicename = true := by
  refine ⟨?_, ?_, ?_, ?_, ?_⟩
  · simp [api_inputmodel, h]
  · simp [api_inputmodel, h]
  · exact containsTag_of_eq _ ("API: " ++ (api ++ " - invalid params ("))
      request.json
      (") passed to " ++ (servicename ++ (": " ++ err)))
      (by simp [invalidParamsMsg, String.append_assoc])
  · exact containsTag_of_eq _ "API: " api
      (" - invalid params (" ++ (request.json ++ (") passed to " ++
        (servicename ++ (": " ++ err)))))
      (by simp [invalidParamsMsg, String.append_assoc])
  · exact containsTag_of_eq _
      ("API: " ++ (api ++ (" - invalid params (" ++ (request.json ++
        ") passed to "))))
      servicename (": " ++ err)
      (by simp [invalidParamsMsg, String.append_assoc])

/-- Witness for C1: a concrete failing parse is rejected with status 412
and the logged warning message. -/
theorem c1_inputmodel_rejects_invalid_witness :
    api_inputmodel "example"
        (fun _ : Unit => (Except.error "boom" : Except String Unit))
        "svc" "lg" (fun _ _ _ => (Except.ok (0 : Int), []))
        { body := (), json := "{}", endpoint := "e" } =
      (.error (.sanic (.preconditionFailed
          (invalidParamsMsg "example" "{}" "svc" "boom") 412)),
       [{ logger := "lg", level := .warning,
          msg := invalidParamsMsg "example" "{}" "svc" "boom" }]) :=
  (c1_inputmodel_rejects_invalid "example" "svc" "lg"
    (fun _ => Except.error "boom") (fun _ _ _ => (Except.ok 0, []))
    (fun _ _ _ => (Except.ok 0, []))
    { body := (), json := "{}", endpoint := "e" } "boom" rfl).1

/-- C2: when the raw request body conforms to the input schema, the
`api_inputmodel` wrapper parses it into a typed value whose field values
equal those in the payload and forwards that value as `service_params`
together with the ambient logger as `service_logger` to the wrapped
handler. -/
theorem c2_inputmodel_forwards_valid {ρ : Type} (api servicename : String)
    (logger : Logger) (schema : List (String × PrimType))
    (func : Request JsonObject → JsonObject → Logger → Outcome ρ)
    (request : Request JsonObject) (v : JsonObject)
    (h : parseModel schema request.body = .ok v) :
    api_inputmodel api (parseModel schema) servicename logger func request =
      func request v logger ∧
    ∀ p ∈ v, lookupField request.body p.1 = some p.2 := by
  constructor
  · simp [api_inputmodel, h]
  · exact parseModel_fields_eq schema request.body v h

/-- Witness for C2: the spec's scenario — schema `{param: string}`, payload
`{"param": "hi"}` — reaches the handler with `param == "hi"`. -/
theorem c2_inputmodel_forwards_valid_witness :
    api_inputmodel "example" (parseModel [("param", .str)]) "svc" "lg"
        (fun _ v _ => (Except.ok v, []))
        { body := [("param", .str "hi")], json := "...", endpoint := "e" } =
      (Except.ok [("param", JsonValue.str "hi")], []) ∧
    lookupField [("param", JsonValue.str "hi")] "param" =
      some (JsonValue.str "hi") :=
  ⟨(c2_inputmodel_forwards_valid "example" "svc" "lg" [("param", .str)]
      (fun _ v _ => (Except.ok v, []))
      { body := [("param", .str "hi")], json := "...", endpoint := "e" }
      [("param", JsonValue.str "hi")] rfl).1,
   (c2_inputmodel_forwards_valid "example" "svc" "lg" [("param", .str)]
      (fun _ v _ => (Except.ok v, []))
      { body := [("param", .str "hi")], json := "...", endpoint := "e" }
      [("param", JsonValue.str "hi")] rfl).2
     ("param", JsonValue.str "hi") (by simp)⟩

/-- C3: a handler returning a mapping convertible to the output schema
produces through the `api_outputmodel` wrapper exactly the same response
(and the same logs) as a handler returning the corresponding pre-built
instance of the output schema. -/
theorem c3_outputmodel_mapping_eq_instance {β μ : Type}
    (api servicename : String) (ofDict : JsonObject → Except String μ)
    (toDict : μ → JsonObject) (reprM : μ → String) (logger : Logger)
    (funcMap funcInst : Request β → Outcome (μ ⊕ JsonObject))
    (request : Request β) (d : JsonObject) (m : μ) (logs : List LogEntry)
    (hmap : funcMap request = (.ok (.inr d), logs))
    (hinst : funcInst request = (.ok (.inl m), logs))
    (hconv : ofDict d = .ok m) :
    api_outputmodel api servicename ofDict toDict reprM logger funcMap
        request =
      api_outputmodel api servicename ofDict toDict reprM logger funcInst
        request := by
  simp [api_outputmodel, hmap, hinst, hconv]

/-- Witness for C3: the spec's scenario — output schema `{message: string}`,
handler returning the mapping `{"message": "ok"}` — yields the same
response as the pre-built instance. -/
theorem c3_outputmodel_mapping_eq_instance_witness :
    api_outputmodel "example" "svc" (parseModel [("message", .str)]) id
        jsonObjectRepr "lg"
        (fun _ => (Except.ok (Sum.inr [("message", JsonValue.str "ok")]), []))
        { body := (), json := "", endpoint := "e" } =
      api_outputmodel "example" "svc" (parseModel [("message", .str)]) id
        jsonObjectRepr "lg"
        (fun _ => (Except.ok (Sum.inl [("message", JsonValue.str "ok")]), []))
        { body := (), json := "", endpoint := "e" } :=
  c3_outputmodel_mapping_eq_instance "example" "svc"
    (parseModel [("message", .str)]) id jsonObjectRepr "lg"
    (fun _ => (Except.ok (Sum.inr [("message", JsonValue.str "ok")]), []))
    (fun _ => (Except.ok (Sum.inl [("message", JsonValue.str "ok")]), []))
    { body := (), json := "", endpoint := "e" }
    [("message", JsonValue.str "ok")] [("message", JsonValue.str "ok")] []
    rfl rfl rfl

/-- C4: when the handler's return value cannot be converted to the output
schema, the `api_outputmodel` wrapper raises the server-error
classification whose message embeds the original error message wrapped
with the service name and the api name, and never equals the raw internal
error message unwrapped. -/
theorem c4_outputmodel_conversion_failure {β μ : Type}
    (api servicename : String) (ofDict : JsonObject → Except String μ)
    (toDict : μ → JsonObject) (reprM : μ → String) (logger : Logger)
    (func : Request β → Outcome (μ ⊕ JsonObject)) (request : Request β)
    (d : JsonObject) (logs : List LogEntry) (err : String)
    (hf : func request = (.ok (.inr d), logs))
    (hconv : ofDict d = .error err) :
    api_outputmodel api servicename ofDict toDict reprM logger func
        request =
      (.error (.sanic (.serverError (internalErrorMsg servicename api err))),
       logs) ∧
    containsTag (internalErrorMsg servicename api err) err = true ∧
    containsTag (internalErrorMsg servicename api err) servicename = true ∧
    containsTag (internalErrorMsg servicename api err) api = true ∧
    internalErrorMsg servicename api err ≠ err := by
  refine ⟨?_, ?_, ?_, ?_, ?_⟩
  · simp [api_outputmodel, hf, hconv]
  · exact containsTag_of_eq _
      ("an internal error occured (service: " ++ (servicename ++ (", api: "
        ++ (api ++ "): ")))) err ""
      (by simp [internalErrorMsg, String.append_assoc])
  · exact containsTag_of_eq _ "an internal error occured (service: "
      servicename (", api: " ++ (api ++ ("): " ++ err)))
      (by simp [internalErrorMsg, String.append_assoc])
  · exact containsTag_of_eq _
      ("an internal error occured (service: " ++ (servicename ++ ", api: "))
      api ("): " ++ err)
      (by simp [internalErrorMsg, String.append_assoc])
  · intro hEq
    have hlen := congrArg String.length hEq
    simp only [internalErrorMsg, String.length_append] at hlen
    have hpos :
        0 < ("an internal error occured (service: " : String).length := by
      decide
    omega

/-- Witness for C4: a concrete failing conversion is classified as a
wrapped server error. -/
theorem c4_outputmodel_conversion_failure_witness :
    api_outputmodel "example" "svc"
        (fun _ => (Except.error "boom" : Except String Unit)) (fun _ => [])
        (fun _ => "u") "lg" (fun _ => (Except.ok (Sum.inr []), []))
        { body := (), json := "", endpoint := "e" } =
      (.error (.sanic (.serverError (internalErrorMsg "svc" "example" "boom"))),
       []) ∧
    internalErrorMsg "svc" "example" "boom" ≠ "boom" :=
  ⟨(c4_outputmodel_conversion_failure "example" "svc"
      (fun _ => (Except.error "boom" : Except String Unit))
      (fun _ => ([] : JsonObject)) (fun _ => "u") "lg"
      (fun _ : Request Unit =>
        ((Except.ok (Sum.inr ([] : JsonObject)) :
            Except Exc (Unit ⊕ JsonObject)), ([] : List LogEntry)))
      { body := (), json := "", endpoint := "e" } [] [] "boom" rfl rfl).1,
   (c4_outputmodel_conversion_failure "example" "svc"
      (fun _ => (Except.error "boom" : Except String Unit))
      (fun _ => ([] : JsonObject)) (fun _ => "u") "lg"
      (fun _ : Request Unit =>
        ((Except.ok (Sum.inr ([] : JsonObject)) :
            Except Exc (Unit ⊕ JsonObject)), ([] : List LogEntry)))
      { body := (), json := "", endpoint := "e" } [] [] "boom" rfl rfl).2.2.2.2⟩

/-- C6 counterexample: for the concrete endpoint `app.sub.handler` the
wrapped server-error message is `in api svc/subhandler: boom` — the
`''.join(...)` strips the dots — so the message contains neither the dotted
endpoint path `sub.handler` nor `app.sub.handler`. -/
theorem c6_errorhandler_dotted_path_counterexample :
    (ServiceErrorHandler_default "svc" "app.sub.handler" (.plain "boom")).2 =
      .serverError "in api svc/subhandler: boom" ∧
    containsTag
      (sanicMsg
        (ServiceErrorHandler_default "svc" "app.sub.handler"
          (.plain "boom")).2) "sub.handler" = false ∧
    containsTag
      (sanicMsg
        (ServiceErrorHandler_default "svc" "app.sub.handler"
          (.plain "boom")).2) "app.sub.handler" = false := by
  refine ⟨by decide, by decide, by decide⟩

/-- C6 (amended): every exception reaching `ServiceErrorHandler.default` is
logged before classification; a framework-native exception is delegated to
the framework's default handler unchanged, and any other exception is
wrapped as a generic server error whose message is tagged with the service
name and with the concatenation, without separators, of the endpoint's
dot-separated components after the first. -/
theorem c6_errorhandler_classification (servicename endpoint : String)
    (exc : Exc) :
    (ServiceErrorHandler_default servicename endpoint exc).1 =
      [{ logger := "root", level := .error, msg := excStr exc }] ∧
    (∀ e, exc = .sanic e →
      (ServiceErrorHandler_default servicename endpoint exc).2 = e) ∧
    (∀ m, exc = .plain m →
      (ServiceErrorHandler_default servicename endpoint exc).2 =
        .serverError ("in api " ++ ((servicename ++ ("/" ++
          dotJoined endpoint)) ++ (": " ++ m))) ∧
      containsTag
        (sanicMsg (ServiceErrorHandler_default servicename endpoint exc).2)
        servicename = true ∧
      containsTag
        (sanicMsg (ServiceErrorHandler_default servicename endpoint exc).2)
        (dotJoined endpoint) = true) := by
  cases exc with
  | sanic e =>
    refine ⟨rfl, ?_, ?_⟩
    · intro e' he
      injection he
    · intro m hm
      exact absurd hm (by simp)
  | plain m =>
    refine ⟨rfl, ?_, ?_⟩
    · intro e he
      exact absurd he (by simp)
    · intro m' hm
      injection hm with hm
      subst hm
      refine ⟨?_, ?_, ?_⟩
      · simp [ServiceErrorHandler_default, String.append_assoc]
      · exact containsTag_of_eq _ "in api " servicename
          ("/" ++ (dotJoined endpoint ++ (": " ++ m)))
          (by simp [ServiceErrorHandler_default, sanicMsg,
            String.append_assoc])
      · exact containsTag_of_eq _ ("in api " ++ (servicename ++ "/"))
          (dotJoined endpoint) (": " ++ m)
          (by simp [ServiceErrorHandler_default, sanicMsg,
            String.append_assoc])

/-- Witness for C6 (amended): a framework-native exception passes through
unchanged, and a plain exception is wrapped at a concrete input. -/
theorem c6_errorhandler_classification_witness :
    (ServiceErrorHandler_default "svc" "app.x"
        (.sanic (.otherSanic "s"))).2 = .otherSanic "s" ∧
    (ServiceErrorHandler_default "svc" "app.x" (.plain "boom")).2 =
      .serverError ("in api " ++ (("svc" ++ ("/" ++ dotJoined "app.x")) ++
        (": " ++ "boom"))) :=
  ⟨(c6_errorhandler_classification "svc" "app.x"
      (.sanic (.otherSanic "s"))).2.1 (.otherSanic "s") rfl,
   ((c6_errorhandler_classification "svc" "app.x"
      (.plain "boom")).2.2 "boom" rfl).1⟩

end Scwoa
